import Mathlib

/-!
Verification of the sandboxed external-execution layer of the Pc-MCP server.

The definitions below are a shallow embedding of the Python source:
  - src/services/terminal_service.py  (TerminalService)
  - src/services/filesystem_service.py (FilesystemService)
  - src/utils/command.py              (run_command_safe, run_command_async)
  - src/config/settings.py            (workspace dir, max_output_length, timeout)

Python strings are modelled as Lean String values (sequences of Unicode code
points); machine-level details that the claims do not touch (mtime stamps,
permission bits, mime types) are elided. Filesystem state is an explicit
association of canonical paths (lists of segments) to stored text, plus a set
of directories. Path canonicalisation (Path.expanduser().resolve()) consults
the real filesystem for symlinks, so it is abstracted as a function field of
an environment record; the in-bounds check on the canonical form is embedded
exactly. Process execution is modelled by an oracle describing how the
spawned process behaves; the code around it is embedded branch by branch.
-/

namespace PcMcp

/-! ## String helpers (Python semantics) -/

/-- Does the list start with the given pattern. Models the step of the Python
substring scan. -/
def hasPre (pat l : List Char) : Bool :=
  match pat, l with
  | [], _ => true
  | _ :: _, [] => false
  | p :: ps, c :: cs => p == c && hasPre ps cs

/-- Does the pattern occur anywhere in the list. -/
def hasSub (pat : List Char) : List Char → Bool
  | [] => pat.isEmpty
  | c :: cs => hasPre pat (c :: cs) || hasSub pat cs

/-- Python `pat in hay` substring test. -/
def containsStr (hay pat : String) : Bool :=
  hasSub pat.data hay.data

/-- Python `str.upper()` restricted to ASCII mapping; the sensitive-keyword
patterns are ASCII so this agrees with the source where it matters. -/
def pyUpper (s : String) : String :=
  String.mk (s.data.map Char.toUpper)

/-- Python slicing `s[:n]`: the first `n` code points of `s`. This is the
truncation applied to captured stdout and stderr in src/utils/command.py. -/
def truncatePy (n : Nat) (s : String) : String :=
  String.mk (s.data.take n)

/-! ## shlex.split model

`shlex.split` in POSIX mode with whitespace splitting: words are separated by
space, tab, carriage return and newline; single quotes protect everything;
double quotes protect everything except a backslash that escapes a quote or a
backslash; a backslash outside quotes escapes the next character. An unclosed
quote or a trailing backslash raises ValueError, modelled as `none`. -/

/-- Lexer state for the shlex model. -/
inductive LexSt where
  | normal
  | esc
  | squote
  | dquote
  | dqesc
deriving DecidableEq

/-- One pass of the shlex.split state machine over the remaining characters.
`cur` is the word being built (reversed), `inWord` records whether a word is
in progress (a pair of quotes yields an empty word). -/
def shlexAux : LexSt → List Char → List Char → Bool → List String → Option (List String)
  | .normal, [], cur, inWord, acc =>
    some (acc ++ if inWord then [String.mk cur.reverse] else [])
  | .esc, [], _, _, _ => none
  | .dqesc, [], _, _, _ => none
  | .squote, [], _, _, _ => none
  | .dquote, [], _, _, _ => none
  | .normal, c :: rest, cur, inWord, acc =>
    if c = ' ' ∨ c = '\t' ∨ c = '\n' ∨ c = '\r' then
      if inWord then shlexAux .normal rest [] false (acc ++ [String.mk cur.reverse])
      else shlexAux .normal rest [] false acc
    else if c = '\\' then shlexAux .esc rest cur true acc
    else if c = '\'' then shlexAux .squote rest cur true acc
    else if c = '"' then shlexAux .dquote rest cur true acc
    else shlexAux .normal rest (c :: cur) true acc
  | .esc, c :: rest, cur, _, acc => shlexAux .normal rest (c :: cur) true acc
  | .squote, c :: rest, cur, _, acc =>
    if c = '\'' then shlexAux .normal rest cur true acc
    else shlexAux .squote rest (c :: cur) true acc
  | .dquote, c :: rest, cur, _, acc =>
    if c = '"' then shlexAux .normal rest cur true acc
    else if c = '\\' then shlexAux .dqesc rest cur true acc
    else shlexAux .dquote rest (c :: cur) true acc
  | .dqesc, c :: rest, cur, _, acc =>
    if c = '"' ∨ c = '\\' then shlexAux .dquote rest (c :: cur) true acc
    else shlexAux .dquote rest (c :: '\\' :: cur) true acc

/-- Model of Python `shlex.split(command)`; `none` models ValueError. -/
def shlexSplit (command : String) : Option (List String) :=
  shlexAux .normal command.data [] false []

/-! ## CommandGuard: TerminalService._is_command_safe -/

/-- TerminalService.BLOCKED_COMMANDS from src/services/terminal_service.py. -/
def BLOCKED_COMMANDS : List String :=
  ["sudo", "su", "doas", "pkexec",
   "chmod", "chown", "chgrp",
   "systemctl", "service",
   "reboot", "shutdown", "poweroff", "halt",
   "mkfs", "fdisk", "parted", "gdisk",
   "mount", "umount",
   "iptables", "ufw", "firewall-cmd",
   "useradd", "usermod", "userdel", "groupadd", "groupmod", "groupdel",
   "passwd"]

/-- The dangerous_operators list inside _is_command_safe: raw-substring
patterns of a shell operator immediately followed by a blocked name. -/
def DANGEROUS_OPERATORS : List String :=
  ["|sudo", "&&sudo", ";sudo", "|su", "&&su", ";su"]

/-- Splitting a character list at every slash, Python str.split semantics:
the empty string yields one empty field, and a trailing slash yields a final
empty field. -/
def splitSlashAux : List Char → List Char → List String → List String
  | [], cur, acc => acc ++ [String.mk cur.reverse]
  | c :: rest, cur, acc =>
    if c = '/' then splitSlashAux rest [] (acc ++ [String.mk cur.reverse])
    else splitSlashAux rest (c :: cur) acc

/-- Python `parts[0].split('/')[-1]`: the token basename after stripping any
path prefix. -/
def baseName (tok : String) : String :=
  (splitSlashAux tok.data [] []).getLastD ""

/-- TerminalService._is_command_safe. Returns (is_safe, reason). The Python
reason strings quote the command name; the quotes are elided here. A shlex
parse failure is modelled by the generic parse-failure reason. -/
def is_command_safe (command : String) : Bool × String :=
  match shlexSplit command with
  | none => (false, "Failed to parse command")
  | some [] => (false, "Empty command")
  | some (p0 :: _) =>
    if BLOCKED_COMMANDS.contains (baseName p0) then
      (false, "Command " ++ baseName p0 ++ " requires admin privileges and is blocked")
    else if DANGEROUS_OPERATORS.any (fun op => containsStr command op) then
      (false, "Command contains privilege escalation attempt")
    else (true, "")

/-! ## ProcessRunner: src/utils/command.py

The behaviour of the spawned process is abstracted as an oracle: it either
runs to exit within the timeout (with an exit code and decoded output
streams), exceeds the timeout, fails to spawn because the executable is
missing, or fails with some other OS error. The code around the spawn is
embedded branch by branch. Output strings carry the result of Python
`bytes.decode(utf-8, errors=replace)`, which is total, so they are plain
strings here. -/

/-- How the spawned process behaves on one invocation. -/
inductive ProcOutcome where
  | completes (exit_code : Int) (out err : String)
  | timesOut (pOut pErr : String)
  | notFound
  | osError (msg : String)

/-- The dict returned by run_command_safe / run_command_async, plus a
`killed` flag recording whether the code forcibly terminated the process
(process.kill() in the async variant, the internal kill of subprocess.run on
TimeoutExpired in the sync variant). -/
structure RunResult where
  stdout : String
  stderr : String
  exit_code : Int
  success : Bool
  error : Option String
  killed : Bool
deriving DecidableEq, Repr

/-- run_command_async from src/utils/command.py. `maxOutput` is
settings.max_output_length, `timeout` the resolved timeout in seconds. -/
def run_command_async (maxOutput timeout : Nat) (args : List String)
    (oc : ProcOutcome) : RunResult :=
  match oc with
  | .completes ec out err =>
    { stdout := truncatePy maxOutput out
      stderr := truncatePy maxOutput err
      exit_code := ec
      success := ec == 0
      error := none
      killed := false }
  | .timesOut _ _ =>
    { stdout := ""
      stderr := "Command timed out after " ++ toString timeout ++ " seconds"
      exit_code := -1
      success := false
      error := some "timeout"
      killed := true }
  | .notFound =>
    { stdout := ""
      stderr := "Command not found: " ++ args.headD ""
      exit_code := -1
      success := false
      error := some "command_not_found"
      killed := false }
  | .osError msg =>
    { stdout := ""
      stderr := msg
      exit_code := -1
      success := false
      error := some msg
      killed := false }

/-- run_command_safe from src/utils/command.py: the synchronous variant,
branch for branch the same result shape as the asynchronous one. -/
def run_command_safe (maxOutput timeout : Nat) (args : List String)
    (oc : ProcOutcome) : RunResult :=
  match oc with
  | .completes ec out err =>
    { stdout := truncatePy maxOutput out
      stderr := truncatePy maxOutput err
      exit_code := ec
      success := ec == 0
      error := none
      killed := false }
  | .timesOut _ _ =>
    { stdout := ""
      stderr := "Command timed out after " ++ toString timeout ++ " seconds"
      exit_code := -1
      success := false
      error := some "timeout"
      killed := true }
  | .notFound =>
    { stdout := ""
      stderr := "Command not found: " ++ args.headD ""
      exit_code := -1
      success := false
      error := some "command_not_found"
      killed := false }
  | .osError msg =>
    { stdout := ""
      stderr := msg
      exit_code := -1
      success := false
      error := some msg
      killed := false }

/-! ## PathGuard: _is_path_allowed (identical in FilesystemService and
TerminalService)

Canonical paths are lists of segments. `Path(raw).expanduser().resolve()`
consults the real filesystem (symlinks, cwd), so canonicalisation is a
function field of the environment; the acceptance check on the canonical form
is embedded exactly: `resolved_path.relative_to(resolved_allowed)` succeeds
iff the segments of the allowed root are a prefix of (or equal to) the
segments of the resolved path. -/

/-- `root.relative_to` success test: root segments are a prefix of the path
segments (equality included). -/
def segPrefixOf (root p : List String) : Bool :=
  match root, p with
  | [], _ => true
  | _ :: _, [] => false
  | a :: as, b :: bs => a == b && segPrefixOf as bs

/-- The process environment of the services: canonicalisation of raw paths,
the resolved allowed base directories (workspace dir, home dir, cwd), the
resolved workspace dir, and the directory-existence test used by
execute_command on a working directory. -/
structure Env where
  resolve : String → List String
  roots : List (List String)
  workspaceDir : List String
  isDir : String → Bool

/-- _is_path_allowed from src/services/filesystem_service.py and
src/services/terminal_service.py: the raw path is expanded and resolved,
then accepted iff some resolved allowed root is a prefix of it. -/
def is_path_allowed (env : Env) (raw : String) : Bool :=
  env.roots.any (fun root => segPrefixOf root (env.resolve raw))

/-! ## Filesystem state

Stored file text is the exact character sequence handed to `f.write` (on the
POSIX platforms the server targets, os.linesep is a bare newline so the
write-side newline translation of Python text mode is the identity). Reading
back in text mode applies universal-newline decoding. -/

/-- Filesystem contents: canonical path to stored text, and the set of
directories. Lookups take the first match, and updates shadow by consing. -/
structure FS where
  files : List (List String × String)
  dirs : List (List String)
deriving DecidableEq, Repr

/-- Content of the file at canonical path `p`, if present. -/
def lookupFile (fs : FS) (p : List String) : Option String :=
  (fs.files.find? (fun e => e.1 == p)).map (fun e => e.2)

/-- The parent directory of a canonical path. -/
def parentSeg (p : List String) : List String :=
  p.dropLast

/-- Universal-newline decoding applied by Python text-mode reads
(open(..., "r") with the default newline=None): a carriage return followed
by a newline, or a lone carriage return, is returned as a newline. -/
def univNL : List Char → List Char
  | [] => []
  | [c] => [if c = '\r' then '\n' else c]
  | c1 :: c2 :: rest =>
    if c1 = '\r' then
      if c2 = '\n' then '\n' :: univNL rest
      else '\n' :: univNL (c2 :: rest)
    else c1 :: univNL (c2 :: rest)

/-! ## FilesystemService: src/services/filesystem_service.py

Each operation re-applies the path guard before any other step, exactly as
in the source. Reads are pure (result only); mutating operations return the
new filesystem state alongside the result, so "no side effect" is the
statement that the returned state equals the input state. Text reads and
writes model the default utf-8 text mode; sizes reported from `stat` are the
utf-8 byte size of the stored text. -/

/-- Result of read_file: the error envelope, or size (stat.st_size) and the
decoded content. -/
inductive ReadResult where
  | err (error details : String)
  | ok (size : Nat) (content : String)
deriving DecidableEq, Repr

/-- Result of write_file: the error envelope, or resolved path and the size
field of the success envelope. -/
inductive WriteResult where
  | err (error details : String)
  | ok (path : List String) (size : Nat)
deriving DecidableEq, Repr

/-- One entry of a directory listing. -/
structure ListEntry where
  name : String
  etype : String
  size : Nat
deriving DecidableEq, Repr

/-- Result of list_directory. -/
inductive ListResult where
  | err (error details : String)
  | ok (directory : List String) (count : Nat) (entries : List ListEntry)
deriving DecidableEq, Repr

/-- Result of create_directory. -/
inductive CreateResult where
  | err (error details : String)
  | ok (path : List String) (message : String)
deriving DecidableEq, Repr

/-- Result of delete_path. -/
inductive DeleteResult where
  | err (error details : String)
  | ok (path : List String) (message : String)
deriving DecidableEq, Repr

/-- Result of get_path_info. -/
inductive InfoResult where
  | err (error details : String)
  | notExists (path : List String)
  | ok (path : List String) (etype : String) (size : Nat)
deriving DecidableEq, Repr

/-- FilesystemService.read_file (default utf-8 text mode): guard, existence
check, file check, then a text-mode read with universal-newline decoding. -/
def read_file (env : Env) (fs : FS) (file_path : String) : ReadResult :=
  if is_path_allowed env file_path then
    let rp := env.resolve file_path
    match lookupFile fs rp with
    | some stored => .ok stored.utf8ByteSize (String.mk (univNL stored.data))
    | none =>
      if fs.dirs.contains rp then .err "Not a file" "Path is not a file"
      else .err "File not found" "File does not exist"
  else .err "Access denied" "Path is outside allowed directories"

/-- The conditional mkdir statement of write_file: parent directories are
created when requested and missing. -/
def mkdirStep (env : Env) (fs : FS) (file_path : String) (create_dirs : Bool) : FS :=
  if create_dirs && !(fs.dirs.contains (parentSeg (env.resolve file_path))) then
    { fs with dirs := parentSeg (env.resolve file_path) :: fs.dirs }
  else fs

/-- FilesystemService.write_file (default utf-8 text mode): guard, optional
parent creation, then open(path, w) which fails on a directory or a missing
parent, and reports size = len(content) in code points. On POSIX the
write-side newline translation is the identity, so the stored text is the
content itself. -/
def write_file (env : Env) (fs : FS) (file_path content : String)
    (create_dirs : Bool) : WriteResult × FS :=
  if is_path_allowed env file_path then
    let rp := env.resolve file_path
    let fs1 := mkdirStep env fs file_path create_dirs
    if fs1.dirs.contains rp then
      (.err "Failed to write file" "Is a directory", fs1)
    else if !(fs1.dirs.contains (parentSeg rp)) then
      (.err "Failed to write file" "No such file or directory", fs1)
    else
      (.ok rp content.length, { fs1 with files := (rp, content) :: fs1.files })
  else (.err "Access denied" "Path is outside allowed directories", fs)

/-- Is `q` strictly below `p` in the tree. -/
def strictUnder (p q : List String) : Bool :=
  segPrefixOf p q && decide (p.length < q.length)

/-- Is `q` an immediate child of `p`. -/
def immChild (p q : List String) : Bool :=
  segPrefixOf p q && (q.length == p.length + 1)

/-- Name (last segment) of a canonical path. -/
def nameOf (p : List String) : String :=
  p.getLastD ""

/-- FilesystemService.list_directory: guard, existence and directory checks,
then the entries below the directory (all of them when recursive, immediate
children otherwise), hidden names filtered on the entry name. -/
def list_directory (env : Env) (fs : FS) (dir_path : String)
    (show_hidden recur : Bool) : ListResult :=
  if is_path_allowed env dir_path then
    let rp := env.resolve dir_path
    if fs.dirs.contains rp then
      let keep := fun q => (if recur then strictUnder rp q else immChild rp q)
                    && (show_hidden || !((nameOf q).startsWith "."))
      let fileEntries := (fs.files.filter (fun e => keep e.1)).map
        (fun e => ListEntry.mk (nameOf e.1) "file" e.2.utf8ByteSize)
      let dirEntries := (fs.dirs.filter keep).map
        (fun d => ListEntry.mk (nameOf d) "directory" 0)
      let entries := fileEntries ++ dirEntries
      .ok rp entries.length entries
    else if (lookupFile fs rp).isSome then
      .err "Not a directory" "Path is not a directory"
    else .err "Directory not found" "Directory does not exist"
  else .err "Access denied" "Path is outside allowed directories"

/-- The proper prefixes of a canonical path (the ancestor chain created by
mkdir(parents=True)). -/
def ancestorsOf (p : List String) : List (List String) :=
  (List.range p.length).map (fun n => p.take n)

/-- FilesystemService.create_directory: guard; an existing directory is
reported as success; an existing file is an error; otherwise mkdir, which
fails without `parents` when the parent is missing. -/
def create_directory (env : Env) (fs : FS) (dir_path : String)
    (parents : Bool) : CreateResult × FS :=
  if is_path_allowed env dir_path then
    let rp := env.resolve dir_path
    if fs.dirs.contains rp then
      (.ok rp "Directory already exists", fs)
    else if (lookupFile fs rp).isSome then
      (.err "Path exists as file" "A file already exists at this path", fs)
    else if !parents && !(fs.dirs.contains (parentSeg rp)) then
      (.err "Failed to create directory" "No such file or directory", fs)
    else
      (.ok rp "Directory created successfully",
       { fs with dirs := rp :: (if parents then ancestorsOf rp else []) ++ fs.dirs })
  else (.err "Access denied" "Path is outside allowed directories", fs)

/-- Does the directory at `rp` have any entry below it. -/
def hasChild (fs : FS) (rp : List String) : Bool :=
  fs.files.any (fun e => strictUnder rp e.1) || fs.dirs.any (fun d => strictUnder rp d)

/-- FilesystemService.delete_path: guard, existence check; a file is
unlinked; a directory is removed recursively under the flag, otherwise rmdir
fails on a non-empty directory with the dedicated envelope. -/
def delete_path (env : Env) (fs : FS) (path_str : String)
    (recur : Bool) : DeleteResult × FS :=
  if is_path_allowed env path_str then
    let rp := env.resolve path_str
    if (lookupFile fs rp).isSome then
      (.ok rp "File deleted successfully",
       { fs with files := fs.files.filter (fun e => !(e.1 == rp)) })
    else if fs.dirs.contains rp then
      if recur then
        (.ok rp "Directory deleted successfully",
         { files := fs.files.filter (fun e => !(strictUnder rp e.1)),
           dirs := fs.dirs.filter (fun d => !(d == rp) && !(strictUnder rp d)) })
      else if hasChild fs rp then
        (.err "Directory not empty" "Use recursive=True to delete non-empty directories", fs)
      else
        (.ok rp "Directory deleted successfully",
         { fs with dirs := fs.dirs.filter (fun d => !(d == rp)) })
    else (.err "Path not found" "Path does not exist", fs)
  else (.err "Access denied" "Path is outside allowed directories", fs)

/-- FilesystemService.get_path_info: guard, then existence report with type
and size. -/
def get_path_info (env : Env) (fs : FS) (path_str : String) : InfoResult :=
  if is_path_allowed env path_str then
    let rp := env.resolve path_str
    match lookupFile fs rp with
    | some stored => .ok rp "file" stored.utf8ByteSize
    | none =>
      if fs.dirs.contains rp then .ok rp "directory" 0
      else .notExists rp
  else .err "Access denied" "Path is outside allowed directories"

/-! ## TerminalService: src/services/terminal_service.py -/

/-- The envelope returned by execute_command: the error envelope, or the
success payload. -/
inductive ExecOutcome where
  | err (error details : String)
  | ok (success : Bool) (exit_code : Int) (stdout stderr : String)
      (working_dir : List String)
deriving DecidableEq, Repr

/-- TerminalService.execute_command: classify the command, then resolve and
guard the working directory, then tokenize and hand to run_command_async.
The Bool component records whether a process was spawned. -/
def execute_command (env : Env) (oc : ProcOutcome) (command : String)
    (working_dir : Option String) (timeout maxOutput : Nat) : ExecOutcome × Bool :=
  let safe := is_command_safe command
  if safe.1 then
    let go := fun (cwd : List String) =>
      match shlexSplit command with
      | none => ((ExecOutcome.err "Invalid command syntax" "Failed to parse command", false) : ExecOutcome × Bool)
      | some args =>
        let r := run_command_async maxOutput timeout args oc
        (.ok r.success r.exit_code r.stdout r.stderr cwd, true)
    match working_dir with
    | some wd =>
      if is_path_allowed env wd then
        if env.isDir wd then go (env.resolve wd)
        else (.err "Invalid working directory" ("Directory does not exist: " ++ wd), false)
      else (.err "Access denied" "Working directory is outside allowed directories", false)
    | none => go env.workspaceDir
  else (.err "Command blocked" safe.2, false)

/-- The sensitive_patterns list of get_environment_variables. -/
def SENSITIVE_PATTERNS : List String :=
  ["KEY", "SECRET", "PASSWORD", "TOKEN", "CREDENTIAL"]

/-- Is the variable name sensitive: some pattern occurs in the uppercased
name. -/
def isSensitive (key : String) : Bool :=
  SENSITIVE_PATTERNS.any (fun pat => containsStr (pyUpper key) pat)

/-- The redaction marker substituted for sensitive values. -/
def REDACTED : String := "***REDACTED***"

/-- TerminalService.get_environment_variables: every variable is kept, with
sensitive values replaced by the redaction marker; the count is the number
of returned variables. -/
def get_environment_variables (envVars : List (String × String)) :
    List (String × String) × Nat :=
  let safeVars := envVars.map (fun kv => (kv.1, if isSensitive kv.1 then REDACTED else kv.2))
  (safeVars, safeVars.length)

/-! ## Concrete instances used to evaluate the theorems -/

/-- A concrete canonicalisation: absolute system paths resolve to themselves,
anything else resolves under the workspace directory. -/
def demoResolve (raw : String) : List String :=
  if raw = "/etc" then ["etc"]
  else if raw = "/etc/passwd" then ["etc", "passwd"]
  else ["home", "user", "ws", raw]

/-- A concrete environment: workspace and home as allowed roots. -/
def demoEnv : Env :=
  { resolve := demoResolve
    roots := [["home", "user", "ws"], ["home", "user"]]
    workspaceDir := ["home", "user", "ws"]
    isDir := fun _ => true }

/-- A concrete starting filesystem: the allowed roots exist, nothing else. -/
def demoFS : FS :=
  { files := []
    dirs := [["home", "user", "ws"], ["home", "user"]] }

/-- The filesystem after writing "hi" to a.txt in the workspace. -/
def demoFS1 : FS :=
  { files := [(["home", "user", "ws", "a.txt"], "hi")]
    dirs := [["home", "user", "ws"], ["home", "user"]] }

/-- A concrete process environment with one sensitive variable. -/
def demoVars : List (String × String) :=
  [("API_KEY", "abc"), ("PATH", "/bin")]

/-! ## Helper lemmas -/

/-- Universal-newline decoding is the identity on text without carriage
returns. -/
theorem univNL_no_cr (l : List Char) (h : '\r' ∉ l) : univNL l = l := by
  induction l with
  | nil => rfl
  | cons c t ih =>
    have hc : ¬(c = '\r') := fun hEq => h (hEq ▸ List.mem_cons_self c t)
    have ht : '\r' ∉ t := fun hm => h (List.mem_cons_of_mem _ hm)
    cases t with
    | nil => simp [univNL, hc]
    | cons c2 rest =>
      have heq : univNL (c :: c2 :: rest) = c :: univNL (c2 :: rest) := by
        simp [univNL, hc]
      rw [heq, ih ht]

/-- In a list of pairs whose keys are pairwise distinct, a key determines its
value. -/
theorem keyVal_unique (l : List (String × String)) (k a b : String)
    (hnd : (l.map Prod.fst).Nodup) ( ha : (k, a) ∈ l) (hb : (k, b) ∈ l) :
    a = b := by
  induction l with
  | nil => cases ha
  | cons kv t ih =>
    rw [List.map_cons, List.nodup_cons] at hnd
    rcases List.mem_cons.mp ha with ha1 | ha2
    · rcases List.mem_cons.mp hb with hb1 | hb2
      · rw [← ha1] at hb1
        exact (Prod.mk.injEq _ _ _ _ ▸ hb1).2.symm
      · exfalso
        apply hnd.1
        have hk : kv.1 = k := by rw [← ha1]
        rw [hk]
        exact List.mem_map.mpr ⟨(k, b), hb2, rfl⟩
    · rcases List.mem_cons.mp hb with hb1 | hb2
      · exfalso
        apply hnd.1
        have hk : kv.1 = k := by rw [← hb1]
        rw [hk]
        exact List.mem_map.mpr ⟨(k, a), ha2, rfl⟩
      · exact ih hnd.2 ha2 hb2

/-! ## Claims -/

/-- Unfolding equation for read_file on an in-bounds path whose lookup
finds stored text. -/
theorem read_file_found (env : Env) (fs : FS) (p stored : String)
    (hAllow : is_path_allowed env p = true)
    (hfind : lookupFile fs (env.resolve p) = some stored) :
    read_file env fs p = .ok stored.utf8ByteSize (String.mk (univNL stored.data)) := by
  unfold read_file
  rw [if_pos hAllow]
  simp only [hfind]

/-- Inversion for a successful write_file: the envelope carries the
resolved path and the code-point length of the content, and the new state
holds the content at that path in front of the previous files. -/
theorem write_file_ok_inv (env : Env) (fs fs1 : FS) (p content : String)
    (pth : List String) (sz : Nat) (cd : Bool)
    (hw : write_file env fs p content cd = (WriteResult.ok pth sz, fs1)) :
    pth = env.resolve p ∧ sz = content.length ∧
    fs1 = { mkdirStep env fs p cd with
            files := (env.resolve p, content) :: (mkdirStep env fs p cd).files } := by
  unfold write_file at hw
  by_cases hA : is_path_allowed env p = true
  · rw [if_pos hA] at hw
    simp only [] at hw
    generalize hg : mkdirStep env fs p cd = fsm at hw
    split at hw
    · simp at hw
    · split at hw
      · simp at hw
      · simp only [Prod.mk.injEq, WriteResult.ok.injEq] at hw
        refine ⟨hw.1.1.symm, hw.1.2.symm, ?_⟩
        rw [← hw.2]
  · rw [if_neg hA] at hw
    simp at hw

/-- Unfolding equation for is_command_safe once tokenization has produced a
first token. -/
theorem is_command_safe_cons (cmd p0 : String) (rest : List String)
    (hsplit : shlexSplit cmd = some (p0 :: rest)) :
    is_command_safe cmd =
      if BLOCKED_COMMANDS.contains (baseName p0) then
        (false, "Command " ++ baseName p0 ++ " requires admin privileges and is blocked")
      else if DANGEROUS_OPERATORS.any (fun op => containsStr cmd op) then
        (false, "Command contains privilege escalation attempt")
      else (true, "") := by
  unfold is_command_safe
  rw [hsplit]

/-- Claim C3: for every command line whose first shell-word token, after
stripping any path prefix, has a basename in the block list, the
classification returns unsafe and execute_command returns the
command-blocked envelope without spawning a process. The classification
is a plain function of the command string, hence deterministic and free of
side effects by construction. -/
theorem C3_blocklist_blocks (cmd p0 : String) (rest : List String) (env : Env)
    (oc : ProcOutcome) (wd : Option String) (t m : Nat)
    (hsplit : shlexSplit cmd = some (p0 :: rest))
    (hblocked : BLOCKED_COMMANDS.contains (baseName p0) = true) :
    (is_command_safe cmd).1 = false ∧
    execute_command env oc cmd wd t m =
      (ExecOutcome.err "Command blocked" (is_command_safe cmd).2, false) := by
  have h1 : (is_command_safe cmd).1 = false := by
    rw [is_command_safe_cons cmd p0 rest hsplit, if_pos hblocked]
  refine ⟨h1, ?_⟩
  unfold execute_command
  simp [h1]

/-- Witness for C3 at the concrete command "sudo ls". -/
theorem C3_blocklist_blocks_witness :
    shlexSplit "sudo ls" = some ["sudo", "ls"] ∧
    BLOCKED_COMMANDS.contains (baseName "sudo") = true ∧
    ((is_command_safe "sudo ls").1 = false ∧
     execute_command demoEnv (.completes 0 "" "") "sudo ls" none 120 10000 =
       (ExecOutcome.err "Command blocked" (is_command_safe "sudo ls").2, false)) :=
  ⟨by decide, by decide,
   C3_blocklist_blocks "sudo ls" "sudo" ["ls"] demoEnv (.completes 0 "" "")
     none 120 10000 (by decide) (by decide)⟩

/-- Counterexample to claim C1: on the two example command lines of the
spec, the operator scan does not fire, because the operator and the blocked
name are separated by a space while the scan looks for the adjacency
substrings only; the classification returns safe and execute_command does
spawn a process. -/
theorem C1_counterexample :
    is_command_safe "echo hi && sudo ls" = (true, "") ∧
    is_command_safe "ls | sudo tee x" = (true, "") ∧
    (execute_command demoEnv (.completes 0 "hi\n" "") "echo hi && sudo ls"
       none 120 10000).2 = true := by
  refine ⟨by decide, by decide, by decide⟩

/-- Claim C1 as amended: a command line containing one of the adjacency
substrings (pipe, double ampersand or semicolon immediately followed by
sudo or su, with no intervening space) is classified unsafe and
execute_command returns the command-blocked envelope with no process
spawned. -/
theorem C1_adjacent_operator_blocks (cmd : String) (env : Env) (oc : ProcOutcome)
    (wd : Option String) (t m : Nat)
    (h : DANGEROUS_OPERATORS.any (fun op => containsStr cmd op) = true) :
    (is_command_safe cmd).1 = false ∧
    execute_command env oc cmd wd t m =
      (ExecOutcome.err "Command blocked" (is_command_safe cmd).2, false) := by
  have h1 : (is_command_safe cmd).1 = false := by
    cases hs : shlexSplit cmd with
    | none => unfold is_command_safe; rw [hs]
    | some parts =>
      cases parts with
      | nil => unfold is_command_safe; rw [hs]
      | cons p0 rest =>
        rw [is_command_safe_cons cmd p0 rest hs]
        by_cases hb : BLOCKED_COMMANDS.contains (baseName p0) = true
        · rw [if_pos hb]
        · rw [if_neg hb, if_pos h]
  refine ⟨h1, ?_⟩
  unfold execute_command
  simp [h1]

/-- Witness for the amended C1 at the concrete command with the adjacency
substring present. -/
theorem C1_adjacent_operator_blocks_witness :
    DANGEROUS_OPERATORS.any (fun op => containsStr "echo hi &&sudo ls" op) = true ∧
    ((is_command_safe "echo hi &&sudo ls").1 = false ∧
     execute_command demoEnv (.completes 0 "" "") "echo hi &&sudo ls" none 120 10000 =
       (ExecOutcome.err "Command blocked" (is_command_safe "echo hi &&sudo ls").2, false)) :=
  ⟨by decide,
   C1_adjacent_operator_blocks "echo hi &&sudo ls" demoEnv (.completes 0 "" "")
     none 120 10000 (by decide)⟩

/-- Counterexample to claim C2: execute_command classifies the command
before looking at the working directory, so a blocked command with an
out-of-bounds working directory returns the command-blocked envelope, not
the access-denied one (no process is spawned either way). -/
theorem C2_counterexample :
    is_path_allowed demoEnv "/etc" = false ∧
    execute_command demoEnv (.completes 0 "" "") "sudo ls" (some "/etc") 120 10000 =
      (ExecOutcome.err "Command blocked"
        "Command sudo requires admin privileges and is blocked", false) ∧
    "Command blocked" ≠ "Access denied" := by
  refine ⟨by decide, by decide, by decide⟩

/-- Claim C2 as amended: for every raw path whose canonical form is not
equal to or a descendant of one of the allowed roots, each of read-file,
write-file, list-directory, create-directory, delete-path and get-path-info
returns the access-denied envelope with the filesystem state unchanged, and
execute-command with that working directory returns the access-denied
envelope with no process spawned provided the command itself passes
classification (a command that fails classification is rejected as
command-blocked first, still with no spawn). -/
theorem C2_out_of_bounds_denied (env : Env) (fs : FS) (p content cmd : String)
    (cd sh rc pr rc2 : Bool) (oc : ProcOutcome) (t m : Nat)
    (hp : is_path_allowed env p = false)
    (hcmd : (is_command_safe cmd).1 = true) :
    read_file env fs p = .err "Access denied" "Path is outside allowed directories" ∧
    write_file env fs p content cd =
      (.err "Access denied" "Path is outside allowed directories", fs) ∧
    list_directory env fs p sh rc =
      .err "Access denied" "Path is outside allowed directories" ∧
    create_directory env fs p pr =
      (.err "Access denied" "Path is outside allowed directories", fs) ∧
    delete_path env fs p rc2 =
      (.err "Access denied" "Path is outside allowed directories", fs) ∧
    get_path_info env fs p = .err "Access denied" "Path is outside allowed directories" ∧
    execute_command env oc cmd (some p) t m =
      (ExecOutcome.err "Access denied"
        "Working directory is outside allowed directories", false) := by
  refine ⟨?_, ?_, ?_, ?_, ?_, ?_, ?_⟩
  · unfold read_file; rw [if_neg (by simp [hp])]
  · unfold write_file; rw [if_neg (by simp [hp])]
  · unfold list_directory; rw [if_neg (by simp [hp])]
  · unfold create_directory; rw [if_neg (by simp [hp])]
  · unfold delete_path; rw [if_neg (by simp [hp])]
  · unfold get_path_info; rw [if_neg (by simp [hp])]
  · unfold execute_command
    simp only [hcmd, if_pos]
    rw [if_neg (by simp [hp])]

/-- Witness for the amended C2 at a concrete out-of-bounds path and a
concrete command that passes classification. -/
theorem C2_out_of_bounds_denied_witness :
    is_path_allowed demoEnv "/etc" = false ∧
    (is_command_safe "ls").1 = true ∧
    (read_file demoEnv demoFS "/etc" =
       .err "Access denied" "Path is outside allowed directories" ∧
     write_file demoEnv demoFS "/etc" "x" true =
       (.err "Access denied" "Path is outside allowed directories", demoFS) ∧
     list_directory demoEnv demoFS "/etc" false false =
       .err "Access denied" "Path is outside allowed directories" ∧
     create_directory demoEnv demoFS "/etc" true =
       (.err "Access denied" "Path is outside allowed directories", demoFS) ∧
     delete_path demoEnv demoFS "/etc" false =
       (.err "Access denied" "Path is outside allowed directories", demoFS) ∧
     get_path_info demoEnv demoFS "/etc" =
       .err "Access denied" "Path is outside allowed directories" ∧
     execute_command demoEnv (.completes 0 "" "") "ls" (some "/etc") 120 10000 =
       (ExecOutcome.err "Access denied"
         "Working directory is outside allowed directories", false)) :=
  ⟨by decide, by decide,
   C2_out_of_bounds_denied demoEnv demoFS "/etc" "x" "ls" true false false true false
     (.completes 0 "" "") 120 10000 (by decide) (by decide)⟩

/-- Claim C4: when the process exceeds the timeout, both runner variants
forcibly terminate it, discard all partial output that had been collected
(the quantified pOut and pErr do not reach the result, whose stdout is
empty), and return the dedicated timeout failure kind in the error field,
so callers can branch without string-matching stderr. -/
theorem C4_timeout_kills_and_discards (m t : Nat) (args : List String)
    (pOut pErr : String) :
    run_command_async m t args (.timesOut pOut pErr) =
      { stdout := ""
        stderr := "Command timed out after " ++ toString t ++ " seconds"
        exit_code := -1
        success := false
        error := some "timeout"
        killed := true } ∧
    run_command_safe m t args (.timesOut pOut pErr) =
      { stdout := ""
        stderr := "Command timed out after " ++ toString t ++ " seconds"
        exit_code := -1
        success := false
        error := some "timeout"
        killed := true } :=
  ⟨rfl, rfl⟩

/-- Claim C9: when the process runs to exit, the success flag of both
runner variants is true exactly when the exit code is zero, and the exit
code itself is reported in the result. -/
theorem C9_success_iff_exit_zero (m t : Nat) (args : List String) (ec : Int)
    (out err : String) :
    ((run_command_async m t args (.completes ec out err)).success = true ↔ ec = 0) ∧
    (run_command_async m t args (.completes ec out err)).exit_code = ec ∧
    ((run_command_safe m t args (.completes ec out err)).success = true ↔ ec = 0) ∧
    (run_command_safe m t args (.completes ec out err)).exit_code = ec := by
  refine ⟨?_, rfl, ?_, rfl⟩ <;> simp [run_command_async, run_command_safe]

/-- Claim C10: every failing invocation — timeout, executable not found, or
any other OS error — yields exit code -1, success false and empty stdout,
in both the synchronous and the asynchronous variant. -/
theorem C10_failures_uniform (m t : Nat) (args : List String)
    (pOut pErr msg : String) :
    ((run_command_async m t args (.timesOut pOut pErr)).exit_code = -1 ∧
     (run_command_async m t args (.timesOut pOut pErr)).success = false ∧
     (run_command_async m t args (.timesOut pOut pErr)).stdout = "") ∧
    ((run_command_async m t args .notFound).exit_code = -1 ∧
     (run_command_async m t args .notFound).success = false ∧
     (run_command_async m t args .notFound).stdout = "") ∧
    ((run_command_async m t args (.osError msg)).exit_code = -1 ∧
     (run_command_async m t args (.osError msg)).success = false ∧
     (run_command_async m t args (.osError msg)).stdout = "") ∧
    ((run_command_safe m t args (.timesOut pOut pErr)).exit_code = -1 ∧
     (run_command_safe m t args (.timesOut pOut pErr)).success = false ∧
     (run_command_safe m t args (.timesOut pOut pErr)).stdout = "") ∧
    ((run_command_safe m t args .notFound).exit_code = -1 ∧
     (run_command_safe m t args .notFound).success = false ∧
     (run_command_safe m t args .notFound).stdout = "") ∧
    ((run_command_safe m t args (.osError msg)).exit_code = -1 ∧
     (run_command_safe m t args (.osError msg)).success = false ∧
     (run_command_safe m t args (.osError msg)).stdout = "") :=
  ⟨⟨rfl, rfl, rfl⟩, ⟨rfl, rfl, rfl⟩, ⟨rfl, rfl, rfl⟩,
   ⟨rfl, rfl, rfl⟩, ⟨rfl, rfl, rfl⟩, ⟨rfl, rfl, rfl⟩⟩

/-- Claim C5: captured output longer than the ceiling is cut to exactly the
ceiling, re-truncating a truncated stream is a no-op, and the cut happens at
a code-point boundary (the truncated stream is a character-level prefix of
the original, so no multi-byte encoded character is split); this is the
truncation both runner variants apply to stdout and stderr. -/
theorem C5_truncation (n m t : Nat) (s out err : String) (args : List String)
    (ec : Int) (h : n < s.length) :
    (truncatePy n s).length = n ∧
    truncatePy n (truncatePy n s) = truncatePy n s ∧
    (∃ rest, s.data = (truncatePy n s).data ++ rest) ∧
    (run_command_async m t args (.completes ec out err)).stdout = truncatePy m out ∧
    (run_command_async m t args (.completes ec out err)).stderr = truncatePy m err ∧
    (run_command_safe m t args (.completes ec out err)).stdout = truncatePy m out ∧
    (run_command_safe m t args (.completes ec out err)).stderr = truncatePy m err := by
  refine ⟨?_, ?_, ⟨s.data.drop n, ?_⟩, rfl, rfl, rfl, rfl⟩
  · simp only [truncatePy, String.length]
    exact (List.length_take n s.data).trans (Nat.min_eq_left (Nat.le_of_lt h))
  · simp [truncatePy, List.take_take]
  · simp [truncatePy]

/-- Witness for C5 at a concrete over-long stream. -/
theorem C5_truncation_witness :
    2 < ("abcd" : String).length ∧
    ((truncatePy 2 "abcd").length = 2 ∧
     truncatePy 2 (truncatePy 2 "abcd") = truncatePy 2 "abcd" ∧
     (∃ rest, ("abcd" : String).data = (truncatePy 2 "abcd").data ++ rest) ∧
     (run_command_async 2 5 ["x"] (.completes 0 "hello" "world")).stdout =
       truncatePy 2 "hello" ∧
     (run_command_async 2 5 ["x"] (.completes 0 "hello" "world")).stderr =
       truncatePy 2 "world" ∧
     (run_command_safe 2 5 ["x"] (.completes 0 "hello" "world")).stdout =
       truncatePy 2 "hello" ∧
     (run_command_safe 2 5 ["x"] (.completes 0 "hello" "world")).stderr =
       truncatePy 2 "world") :=
  ⟨by decide, C5_truncation 2 2 5 "abcd" "hello" "world" ["x"] 0 (by decide)⟩

/-- Claim C6: get_environment_variables returns, for a variable whose name
contains a sensitive keyword, the redaction marker and never the stored
value, and returns every other value unchanged (keys of a process
environment are unique, hence the nodup hypothesis). -/
theorem C6_env_redaction (envVars : List (String × String)) (k v v2 : String)
    (hnd : (envVars.map Prod.fst).Nodup)
    (hmem : (k, v) ∈ envVars)
    (hout : (k, v2) ∈ (get_environment_variables envVars).1) :
    v2 = (if isSensitive k then REDACTED else v) ∧
    (k, if isSensitive k then REDACTED else v) ∈ (get_environment_variables envVars).1 := by
  have hmap : (get_environment_variables envVars).1 =
      envVars.map (fun kv => (kv.1, if isSensitive kv.1 then REDACTED else kv.2)) := rfl
  constructor
  · rw [hmap] at hout
    rcases List.mem_map.mp hout with ⟨kv, hkv, heq⟩
    have hk : kv.1 = k := (Prod.ext_iff.mp heq).1
    have hv2 : (if isSensitive kv.1 then REDACTED else kv.2) = v2 :=
      (Prod.ext_iff.mp heq).2
    have hkv2 : (k, kv.2) ∈ envVars := by rw [← hk]; exact hkv
    have hval : kv.2 = v := keyVal_unique envVars k kv.2 v hnd hkv2 hmem
    rw [← hv2, hk, hval]
  · rw [hmap]
    exact List.mem_map.mpr ⟨(k, v), hmem, rfl⟩

/-- Witness for C6 at a concrete environment with a sensitive variable. -/
theorem C6_env_redaction_witness :
    (demoVars.map Prod.fst).Nodup ∧
    ("API_KEY", "abc") ∈ demoVars ∧
    ("API_KEY", REDACTED) ∈ (get_environment_variables demoVars).1 ∧
    (REDACTED = (if isSensitive "API_KEY" then REDACTED else "abc") ∧
     ("API_KEY", if isSensitive "API_KEY" then REDACTED else "abc") ∈
       (get_environment_variables demoVars).1) :=
  ⟨by decide, by decide, by decide,
   C6_env_redaction demoVars "API_KEY" "abc" REDACTED (by decide) (by decide) (by decide)⟩

/-- Counterexample to claim C7: a content with a bare carriage return does
not round-trip, because a Python text-mode read uses universal-newline
decoding; writing "a\rb" succeeds and reading the file back returns "a\nb". -/
theorem C7_counterexample :
    (write_file demoEnv demoFS "a.txt" "a\rb" true).1 =
      WriteResult.ok ["home", "user", "ws", "a.txt"] 3 ∧
    read_file demoEnv (write_file demoEnv demoFS "a.txt" "a\rb" true).2 "a.txt" =
      ReadResult.ok 3 "a\nb" ∧
    "a\nb" ≠ "a\rb" := by
  refine ⟨by decide, by decide, by decide⟩

/-- Claim C7 as amended: for every path accepted by the guard and every
content free of carriage returns, a successful write-file followed by
read-file with the same (default) encoding returns exactly the content. -/
theorem C7_roundtrip (env : Env) (fs fs1 : FS) (p content : String)
    (pth : List String) (sz : Nat)
    (hAllow : is_path_allowed env p = true)
    (hcr : '\r' ∉ content.data)
    (hw : write_file env fs p content true = (WriteResult.ok pth sz, fs1)) :
    read_file env fs1 p = .ok content.utf8ByteSize content := by
  obtain ⟨-, -, hfs⟩ := write_file_ok_inv env fs fs1 p content pth sz true hw
  have hlook : lookupFile fs1 (env.resolve p) = some content := by
    rw [hfs]
    simp [lookupFile]
  rw [read_file_found env fs1 p content hAllow hlook,
      univNL_no_cr content.data hcr]

/-- Witness for the amended C7 at a concrete write of "hi". -/
theorem C7_roundtrip_witness :
    is_path_allowed demoEnv "a.txt" = true ∧
    '\r' ∉ ("hi" : String).data ∧
    write_file demoEnv demoFS "a.txt" "hi" true =
      (WriteResult.ok ["home", "user", "ws", "a.txt"] 2, demoFS1) ∧
    read_file demoEnv demoFS1 "a.txt" = .ok 2 "hi" :=
  ⟨by decide, by decide, by decide,
   C7_roundtrip demoEnv demoFS demoFS1 "a.txt" "hi" ["home", "user", "ws", "a.txt"] 2
     (by decide) (by decide) (by decide)⟩

/-- Counterexample to claim C8: the size field of a successful write is the
number of code points of the content, not the number of bytes written; for
a two-byte character the envelope reports 1 while 2 bytes reach the file. -/
theorem C8_counterexample :
    (write_file demoEnv demoFS "b.txt" "é" true).1 =
      WriteResult.ok ["home", "user", "ws", "b.txt"] 1 ∧
    (lookupFile (write_file demoEnv demoFS "b.txt" "é" true).2
       (demoEnv.resolve "b.txt")).map String.utf8ByteSize = some 2 ∧
    (1 : Nat) ≠ 2 := by
  refine ⟨by decide, by decide, by decide⟩

/-- Claim C8 as amended: the size field of every successful write-file
envelope equals the number of code points of the content (which equals the
number of bytes written exactly when every code point encodes to one
byte). -/
theorem C8_size_is_code_points (env : Env) (fs fs1 : FS) (p content : String)
    (pth : List String) (sz : Nat) (cd : Bool)
    (hw : write_file env fs p content cd = (WriteResult.ok pth sz, fs1)) :
    sz = content.length :=
  (write_file_ok_inv env fs fs1 p content pth sz cd hw).2.1

/-- Witness for the amended C8 at a concrete write. -/
theorem C8_size_is_code_points_witness :
    write_file demoEnv demoFS "a.txt" "hi" true =
      (WriteResult.ok ["home", "user", "ws", "a.txt"] 2, demoFS1) ∧
    (2 : Nat) = ("hi" : String).length :=
  ⟨by decide,
   C8_size_is_code_points demoEnv demoFS demoFS1 "a.txt" "hi"
     ["home", "user", "ws", "a.txt"] 2 true (by decide)⟩

end PcMcp
